import Mathlib

/-!
Verification development for the 8bbSmartController ESP32 firmware
(src/esp32-firmware/main/main.c).  The C source is shallowly embedded:
pure helpers become Lean functions, the global `g_cfg`/`g_state`
records are threaded explicitly, hardware and library leaf calls
(GPIO/PWM driver, HMAC-SHA-256, SHA-256, HTTP transport, the NVS
key/value store, the JSON parser) are modelled at their interfaces:
driver calls become trace events, the hash primitives become function
parameters, parsed JSON becomes an explicit tree.
-/

namespace Fw

/-! ## String sanitization (sanitize_wifi_field, main.c lines 134-157) -/

/-- Character classes removed by sanitize_wifi_field: CR, LF and TAB are
stripped everywhere (first loop of the C function). -/
def keepChar (c : Char) : Bool :=
  !(c == '\r' || c == '\n' || c == '\t')

/-- True for the space character, the only character trimmed from the
ends by sanitize_wifi_field. -/
def isSpaceChar (c : Char) : Bool :=
  c == ' '

/-- List-level body of sanitize_wifi_field: drop CR/LF/TAB, then trim
trailing spaces (the while loop shrinking write_idx), then trim leading
spaces (the start offset plus memmove). -/
def sanitizeChars (l : List Char) : List Char :=
  List.dropWhile isSpaceChar (List.rdropWhile isSpaceChar (List.filter keepChar l))

/-- Embedding of sanitize_wifi_field (main.c lines 134-157): strip
CR/LF/TAB in place, then trim trailing and leading spaces. -/
def sanitize_wifi_field (s : String) : String :=
  String.mk (sanitizeChars s.data)

theorem filter_keep_sanitizeChars (l : List Char) :
    List.filter keepChar (sanitizeChars l) = sanitizeChars l := by
  apply List.filter_eq_self.mpr
  intro a ha
  have h1 : a ∈ List.rdropWhile isSpaceChar (List.filter keepChar l) := by
    have hs := List.dropWhile_suffix (l := List.rdropWhile isSpaceChar (List.filter keepChar l))
      isSpaceChar
    exact hs.subset ha
  have h2 : a ∈ List.filter keepChar l := by
    have hp := List.rdropWhile_prefix isSpaceChar (List.filter keepChar l)
    exact hp.subset h1
  exact (List.mem_filter.mp h2).2

theorem rdropWhile_fixed_dropWhile (p : Char → Bool) :
    ∀ z : List Char, List.rdropWhile p z = z →
      List.rdropWhile p (List.dropWhile p z) = List.dropWhile p z := by
  intro z
  induction z with
  | nil =>
    intro _
    simp [List.dropWhile]
  | cons c cs ih =>
    intro H
    by_cases hc : p c
    case neg =>
      simpa [List.dropWhile, hc] using H
    case pos =>
      rcases eq_or_ne cs [] with rfl | hcs
      · exfalso
        rw [List.rdropWhile_singleton, if_pos hc] at H
        exact List.cons_ne_nil c [] H.symm
      · have hlast : ¬ p (cs.getLast hcs) := by
          have hmp := List.rdropWhile_eq_self_iff.mp H (List.cons_ne_nil c cs)
          rwa [List.getLast_cons hcs] at hmp
        have hcs_fix : List.rdropWhile p cs = cs :=
          List.rdropWhile_eq_self_iff.mpr (fun _ => hlast)
        have hres := ih hcs_fix
        simpa [List.dropWhile, hc] using hres

theorem rdropWhile_dropWhile_rdropWhile (l : List Char) :
    List.rdropWhile isSpaceChar
        (List.dropWhile isSpaceChar (List.rdropWhile isSpaceChar l)) =
      List.dropWhile isSpaceChar (List.rdropWhile isSpaceChar l) :=
  rdropWhile_fixed_dropWhile isSpaceChar (List.rdropWhile isSpaceChar l)
    (List.rdropWhile_idempotent isSpaceChar l)

theorem sanitizeChars_idempotent (l : List Char) :
    sanitizeChars (sanitizeChars l) = sanitizeChars l := by
  show List.dropWhile isSpaceChar
      (List.rdropWhile isSpaceChar (List.filter keepChar (sanitizeChars l))) = _
  rw [filter_keep_sanitizeChars]
  show List.dropWhile isSpaceChar
      (List.rdropWhile isSpaceChar
        (List.dropWhile isSpaceChar
          (List.rdropWhile isSpaceChar (List.filter keepChar l)))) = _
  rw [rdropWhile_dropWhile_rdropWhile]
  exact List.dropWhile_idempotent isSpaceChar _

/-- Claim C9: text-field sanitization (strip CR/LF/TAB, then trim
trailing and leading spaces) is idempotent: for every input string x,
sanitize (sanitize x) = sanitize x. -/
theorem sanitize_idempotent (x : String) :
    sanitize_wifi_field (sanitize_wifi_field x) = sanitize_wifi_field x := by
  show String.mk (sanitizeChars (sanitizeChars x.data)) = String.mk (sanitizeChars x.data)
  rw [sanitizeChars_idempotent]

/-! ## Data model (device_config_t, output_state_t, main.c lines 51-75) -/

/-- Embedding of device_config_t (main.c lines 51-66).  Strings keep
their C meaning of NUL-terminated buffers of capacity MAX_STR = 96,
so writes through safe_strcpy truncate to 95 characters.  relay_gpio
is kept as a list whose meaningful length is 8 (MAX_RELAYS). -/
structure DeviceConfig where
  name : String
  type : String
  passcode : String
  relay_count : Int
  relay_gpio : List Int
  wifi_ssid : String
  wifi_pass : String
  ap_ssid : String
  ap_pass : String
  use_static_ip : Bool
  static_ip : String
  gateway : String
  subnet_mask : String
  ota_key : String
deriving DecidableEq

/-- Embedding of output_state_t (main.c lines 68-75).  relay has
meaningful length 8 (MAX_RELAYS) and rgb meaningful length 4. -/
structure OutputState where
  relay : List Bool
  light_single : Bool
  dimmer_pct : Int
  rgb : List Int
  fan_power : Bool
  fan_speed_pct : Int
deriving DecidableEq

/-- Embedding of legacy_device_config_v1_t (main.c lines 77-91), the
prior fixed-4-relay persisted schema: relay_gpio has meaningful
length 4 and there is no relay_count field. -/
structure LegacyDeviceConfig where
  name : String
  type : String
  passcode : String
  relay_gpio : List Int
  wifi_ssid : String
  wifi_pass : String
  ap_ssid : String
  ap_pass : String
  use_static_ip : Bool
  static_ip : String
  gateway : String
  subnet_mask : String
  ota_key : String
deriving DecidableEq

/-- Embedding of safe_strcpy via snprintf into a MAX_STR = 96 byte
buffer (main.c lines 129-132): the copy silently truncates the source
to 95 characters. -/
def safe_strcpy (src : String) : String :=
  String.mk (src.data.take 95)

/-! ## Pin predicates and relay map sanitization (main.c lines 126-236) -/

/-- The output-capable ESP32 pins accepted by GPIO_IS_VALID_OUTPUT_GPIO:
the existing GPIOs 0-19, 21-23, 25-27 and 32-33 (34-39 are input-only,
20, 24 and 28-31 do not exist). -/
def VALID_OUTPUT_GPIOS : List Int :=
  [0, 1, 2, 3, 4, 5, 6, 7, 8, 9, 10, 11, 12, 13, 14, 15, 16, 17, 18, 19,
   21, 22, 23, 25, 26, 27, 32, 33]

/-- Embedding of SAFE_SCAN_GPIOS (main.c line 127), the safe-pin
allowlist. -/
def SAFE_SCAN_GPIOS : List Int :=
  [2, 4, 5, 12, 13, 14, 15, 16, 17, 18, 19, 21, 22, 23, 25, 26, 27, 32, 33]

/-- Embedding of DEFAULT_RELAY_GPIOS (main.c line 126): the compiled
defaults for relay slots 0-3. -/
def DEFAULT_RELAY_GPIOS : List Int :=
  [16, 17, 18, 19]

/-- Embedding of clamp_int (main.c lines 168-172). -/
def clamp_int (value min_val max_val : Int) : Int :=
  if value < min_val then min_val
  else if value > max_val then max_val
  else value

/-- Embedding of valid_output_gpio_int (main.c lines 178-180). -/
def valid_output_gpio_int (pin : Int) : Bool :=
  decide (0 ≤ pin) && decide (pin ≤ 39) && VALID_OUTPUT_GPIOS.contains pin

/-- Embedding of is_safe_scan_gpio_int (main.c lines 182-187). -/
def is_safe_scan_gpio_int (pin : Int) : Bool :=
  SAFE_SCAN_GPIOS.contains pin

/-- Embedding of valid_relay_gpio_int (main.c lines 189-191). -/
def valid_relay_gpio_int (pin : Int) : Bool :=
  valid_output_gpio_int pin && is_safe_scan_gpio_int pin

/-- Embedding of sanitize_relay_count (main.c lines 174-176): clamp the
stored relay count into [1, MAX_RELAYS]. -/
def sanitize_relay_count (cfg : DeviceConfig) : DeviceConfig :=
  { cfg with relay_count := clamp_int cfg.relay_count 1 8 }

/-- Embedding of sanitize_relay_gpio_map (main.c lines 226-236): clamp
the count, then for each of the 8 slots keep a valid relay pin, replace
an invalid one with the compiled default for slots 0-3 and with -1 for
slots 4-7. -/
def sanitize_relay_gpio_map (cfg : DeviceConfig) : DeviceConfig :=
  let c := sanitize_relay_count cfg
  { c with relay_gpio :=
      (List.range 8).map (fun i =>
        let pin := c.relay_gpio.getD i (-1)
        if valid_relay_gpio_int pin then pin
        else if i < 4 then DEFAULT_RELAY_GPIOS.getD i (-1)
        else -1) }

/-- Embedding of relay_pin_in_use (main.c lines 193-199): clamps the
relay count as a side effect, then scans the active slots for the pin.
Returns the updated config together with the answer. -/
def relay_pin_in_use (cfg : DeviceConfig) (pin : Int) : DeviceConfig × Bool :=
  let c := sanitize_relay_count cfg
  (c, (List.range c.relay_count.toNat).any (fun i => c.relay_gpio.getD i (-1) == pin))

/-- Embedding of aux_pin_available (main.c lines 201-203). -/
def aux_pin_available (cfg : DeviceConfig) (pin : Int) : DeviceConfig × Bool :=
  let (c, used) := relay_pin_in_use cfg pin
  (c, valid_output_gpio_int pin && !used)

/-! ## JSON values as delivered by the external cJSON parser -/

/-- Shallow model of a parsed cJSON tree.  The JSON text parser is an
external collaborator; handlers only inspect parsed values through the
accessors below, mirroring the cJSON_Is* / valuestring / valueint
API. -/
inductive Json where
  | jstr (s : String)
  | jnum (n : Int)
  | jbool (b : Bool)
  | jarr (items : List Json)
  | jobj (fields : List (String × Json))

/-- Model of cJSON_GetObjectItem: look a key up in an object, none for
a missing key or a non-object. -/
def getObjectItem (root : Json) (key : String) : Option Json :=
  match root with
  | .jobj fields => (fields.find? (fun p => p.fst == key)).map Prod.snd
  | _ => none

/-- Model of the cJSON_IsString guard plus valuestring access. -/
def jsonStr : Option Json → Option String
  | some (.jstr s) => some s
  | _ => none

/-- Model of the cJSON_IsNumber guard plus valueint access. -/
def jsonInt : Option Json → Option Int
  | some (.jnum n) => some n
  | _ => none

/-- Model of the cJSON_IsBool guard plus cJSON_IsTrue access. -/
def jsonBool : Option Json → Option Bool
  | some (.jbool b) => some b
  | _ => none

/-- Model of the cJSON_IsArray guard. -/
def jsonArr : Option Json → Option (List Json)
  | some (.jarr items) => some items
  | _ => none

/-- Embedding of check_passcode (main.c lines 329-332): the passcode
field must be a JSON string exactly equal to the stored passcode. -/
def check_passcode (cfg : DeviceConfig) (root : Json) : Bool :=
  match jsonStr (getObjectItem root "passcode") with
  | some p => p == cfg.passcode
  | none => false

/-! ## Driver calls and the output appliers (main.c lines 334-381) -/

/-- Hardware driver effects recorded by the output appliers: a digital
GPIO level write or an LEDC duty update (ledc_set_duty followed by
ledc_update_duty on one channel). -/
inductive DriverCall where
  | gpioSetLevel (pin : Int) (level : Int)
  | ledcSetDuty (channel : Nat) (duty : Int)
deriving DecidableEq

/-- LEDC channel numbers (main.c lines 120-125). -/
def CH_DIMMER : Nat := 0
def CH_RGB_R : Nat := 1
def CH_RGB_G : Nat := 2
def CH_RGB_B : Nat := 3
def CH_RGB_W : Nat := 4
def CH_FAN : Nat := 5

/-- Auxiliary output pins (main.c lines 41-49). -/
def LIGHT_SINGLE_PIN : Int := 23
def FAN_POWER_PIN : Int := 32

/-- Embedding of ledc_set_percent (main.c lines 334-339): clamp the
percentage and scale it linearly onto the 8-bit duty range. -/
def ledc_set_percent (channel : Nat) (pct : Int) : DriverCall :=
  .ledcSetDuty channel ((clamp_int pct 0 100) * 255 / 100)

/-- Embedding of apply_relay (main.c lines 341-349).  The bounds checks
use the unsanitized count; sanitize_relay_gpio_map then runs on the
shared config as a side effect; an invalid (for slots 4-7: unassigned
-1) pin returns without touching the state or the driver. -/
def apply_relay (cfg : DeviceConfig) (st : OutputState) (idx : Int) (v : Bool) :
    DeviceConfig × OutputState × List DriverCall :=
  if idx < 0 ∨ 8 ≤ idx then (cfg, st, [])
  else if cfg.relay_count ≤ idx then (cfg, st, [])
  else
    let c := sanitize_relay_gpio_map cfg
    let pin := c.relay_gpio.getD idx.toNat (-1)
    if valid_relay_gpio_int pin then
      (c, { st with relay := st.relay.set idx.toNat v },
        [.gpioSetLevel pin (if v then 1 else 0)])
    else (c, st, [])

/-- Embedding of apply_light_single (main.c lines 351-356). -/
def apply_light_single (cfg : DeviceConfig) (st : OutputState) (v : Bool) :
    DeviceConfig × OutputState × List DriverCall :=
  let (c, avail) := aux_pin_available cfg LIGHT_SINGLE_PIN
  (c, { st with light_single := v },
    if avail then [.gpioSetLevel LIGHT_SINGLE_PIN (if v then 1 else 0)] else [])

/-- Embedding of apply_dimmer (main.c lines 358-361). -/
def apply_dimmer (cfg : DeviceConfig) (st : OutputState) (pct : Int) :
    DeviceConfig × OutputState × List DriverCall :=
  let st' := { st with dimmer_pct := clamp_int pct 0 100 }
  (cfg, st', [ledc_set_percent CH_DIMMER st'.dimmer_pct])

/-- Embedding of apply_rgb (main.c lines 363-372). -/
def apply_rgb (cfg : DeviceConfig) (st : OutputState) (r g b w : Int) :
    DeviceConfig × OutputState × List DriverCall :=
  let st' := { st with rgb :=
    [clamp_int r 0 100, clamp_int g 0 100, clamp_int b 0 100, clamp_int w 0 100] }
  (cfg, st',
    [ledc_set_percent CH_RGB_R (st'.rgb.getD 0 0),
     ledc_set_percent CH_RGB_G (st'.rgb.getD 1 0),
     ledc_set_percent CH_RGB_B (st'.rgb.getD 2 0),
     ledc_set_percent CH_RGB_W (st'.rgb.getD 3 0)])

/-- Embedding of apply_fan (main.c lines 374-381): record power and the
clamped speed, drive the fan power pin when it does not conflict with
the relay map, and set the fan PWM to the speed while powered and to 0
otherwise. -/
def apply_fan (cfg : DeviceConfig) (st : OutputState) (power : Bool) (speed_pct : Int) :
    DeviceConfig × OutputState × List DriverCall :=
  let st' := { st with fan_power := power, fan_speed_pct := clamp_int speed_pct 0 100 }
  let (c, avail) := aux_pin_available cfg FAN_POWER_PIN
  (c, st',
    (if avail then [DriverCall.gpioSetLevel FAN_POWER_PIN (if power then 1 else 0)] else [])
      ++ [ledc_set_percent CH_FAN (if st'.fan_power then st'.fan_speed_pct else 0)])

/-! ## Command interpreter (main.c lines 383-460) -/

/-- Embedding of parse_on_off_toggle (main.c lines 383-389).  The
argument is an Option to mirror the nullable C string: a NULL state
leaves the current value unchanged. -/
def parse_on_off_toggle (state : Option String) (current : Bool) : Bool :=
  match state with
  | none => current
  | some s =>
    if s == "toggle" then !current
    else if s == "on" then true
    else if s == "off" then false
    else current

/-- Digit-accumulating loop of atoi. -/
def atoiDigits : List Char → Nat → Nat
  | [], acc => acc
  | c :: cs, acc => if c.isDigit then atoiDigits cs (acc * 10 + (c.toNat - 48)) else acc

/-- Embedding of the C library atoi as used on the channel suffix:
skip leading whitespace, take an optional sign, then read leading
digits; a string with no digits parses as 0. -/
def atoi (s : String) : Int :=
  let l := s.data.dropWhile (fun c => c == ' ' || c == '\t' || c == '\n' || c == '\r')
  match l with
  | '-' :: rest => -(atoiDigits rest 0 : Int)
  | '+' :: rest => (atoiDigits rest 0 : Int)
  | _ => (atoiDigits l 0 : Int)

/-- Embedding of handle_control (main.c lines 391-460): dispatch one
channel/state/value command against the config and output state,
returning the success flag, the (possibly re-sanitized) config, the new
output state and the recorded driver calls.  An absent or non-string
state field defaults to the string "toggle" (line 398). -/
def handle_control (cfg : DeviceConfig) (st : OutputState) (root : Json) :
    Bool × DeviceConfig × OutputState × List DriverCall :=
  match jsonStr (getObjectItem root "channel") with
  | none => (false, cfg, st, [])
  | some ch =>
    let stStr : String := (jsonStr (getObjectItem root "state")).getD "toggle"
    let val : Int := (jsonInt (getObjectItem root "value")).getD 0
    if ch.data.take 5 == "relay".data then
      let idx : Int := atoi (String.mk (ch.data.drop 5)) - 1
      if idx < 0 ∨ cfg.relay_count ≤ idx then (false, cfg, st, [])
      else
        let cur := if 0 ≤ idx ∧ idx < 8 then st.relay.getD idx.toNat false else false
        let target := parse_on_off_toggle (some stStr) cur
        let (c, s, calls) := apply_relay cfg st idx target
        (true, c, s, calls)
    else if ch == "light" then
      let target := parse_on_off_toggle (some stStr) st.light_single
      let (c, s, calls) := apply_light_single cfg st target
      (true, c, s, calls)
    else if ch == "dimmer" then
      let pct := if stStr == "set" then val
        else if parse_on_off_toggle (some stStr) (decide (st.dimmer_pct > 0)) then 100 else 0
      let (c, s, calls) := apply_dimmer cfg st pct
      (true, c, s, calls)
    else if ch == "rgb" || ch == "rgbw" then
      let (c, s, calls) :=
        if stStr == "off" then apply_rgb cfg st 0 0 0 0
        else if stStr == "on" then
          apply_rgb cfg st 100 100 100 (if ch == "rgbw" then 100 else 0)
        else
          apply_rgb cfg st
            ((jsonInt (getObjectItem root "r")).getD (st.rgb.getD 0 0))
            ((jsonInt (getObjectItem root "g")).getD (st.rgb.getD 1 0))
            ((jsonInt (getObjectItem root "b")).getD (st.rgb.getD 2 0))
            ((jsonInt (getObjectItem root "w")).getD (st.rgb.getD 3 0))
      (true, c, s, calls)
    else if ch == "fan" || ch == "fan_power" || ch == "fan_speed" then
      let pw : Bool × Int :=
        if ch == "fan_power" then
          (parse_on_off_toggle (some stStr) st.fan_power, st.fan_speed_pct)
        else if ch == "fan_speed" then
          (decide (val > 0), val)
        else if stStr == "set" then
          (decide (val > 0), val)
        else
          let power := parse_on_off_toggle (some stStr) st.fan_power
          let speed1 := if !power then 0 else st.fan_speed_pct
          let speed2 := if power && speed1 == 0 then 50 else speed1
          (power, speed2)
      let (c, s, calls) := apply_fan cfg st pw.fst pw.snd
      (true, c, s, calls)
    else (false, cfg, st, [])

/-! ## Sample concrete values used to exercise the handlers -/

/-- Concrete configuration used as an input for the concrete runs below
(relay map and count as on the default reference board). -/
def sampleConfig : DeviceConfig :=
  { name := "dev"
    type := "relay_switch"
    passcode := "x"
    relay_count := 4
    relay_gpio := [16, 17, 18, 19, -1, -1, -1, -1]
    wifi_ssid := "net"
    wifi_pass := "netpass"
    ap_ssid := "ap"
    ap_pass := "appass12"
    use_static_ip := false
    static_ip := ""
    gateway := ""
    subnet_mask := ""
    ota_key := "secret" }

/-- Concrete all-off output state (the boot state of g_state). -/
def sampleState : OutputState :=
  { relay := [false, false, false, false, false, false, false, false]
    light_single := false
    dimmer_pct := 0
    rgb := [0, 0, 0, 0]
    fan_power := false
    fan_speed_pct := 0 }

/-! ## Helper lemmas about clamping and the sanitized relay map -/

theorem clamp_int_pos_iff (v : Int) : 0 < clamp_int v 0 100 ↔ 0 < v := by
  unfold clamp_int
  split_ifs <;> omega

theorem valid_relay_gpio_nonneg (p : Int) (h : valid_relay_gpio_int p = true) : 0 ≤ p := by
  unfold valid_relay_gpio_int valid_output_gpio_int at h
  simp only [Bool.and_eq_true, decide_eq_true_eq] at h
  exact h.1.1.1

theorem valid_relay_gpio_safe (p : Int) (h : valid_relay_gpio_int p = true) :
    is_safe_scan_gpio_int p = true := by
  unfold valid_relay_gpio_int at h
  simp only [Bool.and_eq_true] at h
  exact h.2

theorem getD_map_range (f : Nat → Int) (n i : Nat) (h : i < n) :
    ((List.range n).map f).getD i (-1) = f i := by
  rw [List.getD_eq_getElem?_getD, List.getElem?_map, List.getElem?_range h]
  rfl

theorem sanitize_relay_gpio_map_slot (cfg : DeviceConfig) (i : Nat) (h : i < 8) :
    (sanitize_relay_gpio_map cfg).relay_gpio.getD i (-1) =
      (if valid_relay_gpio_int (cfg.relay_gpio.getD i (-1)) then cfg.relay_gpio.getD i (-1)
       else if i < 4 then DEFAULT_RELAY_GPIOS.getD i (-1)
       else -1) :=
  getD_map_range
    (fun j =>
      if valid_relay_gpio_int (cfg.relay_gpio.getD j (-1)) then cfg.relay_gpio.getD j (-1)
      else if j < 4 then DEFAULT_RELAY_GPIOS.getD j (-1)
      else -1) 8 i h

theorem sanitize_relay_gpio_map_count (cfg : DeviceConfig) :
    1 ≤ (sanitize_relay_gpio_map cfg).relay_count ∧
      (sanitize_relay_gpio_map cfg).relay_count ≤ 8 := by
  show 1 ≤ clamp_int cfg.relay_count 1 8 ∧ clamp_int cfg.relay_count 1 8 ≤ 8
  unfold clamp_int
  constructor <;> (split_ifs <;> omega)

theorem sanitize_slot_lt4_ne_neg_one (cfg : DeviceConfig) (i : Nat) (h : i < 4) :
    (sanitize_relay_gpio_map cfg).relay_gpio.getD i (-1) ≠ -1 := by
  rw [sanitize_relay_gpio_map_slot cfg i (by omega)]
  split_ifs with hv
  · have := valid_relay_gpio_nonneg _ hv
    omega
  · interval_cases i <;> decide

theorem sanitize_slot_safe (cfg : DeviceConfig) (i : Nat) (h8 : i < 8) :
    (sanitize_relay_gpio_map cfg).relay_gpio.getD i (-1) ≠ -1 →
    is_safe_scan_gpio_int ((sanitize_relay_gpio_map cfg).relay_gpio.getD i (-1)) = true := by
  rw [sanitize_relay_gpio_map_slot cfg i h8]
  split_ifs with hv h4
  · intro _
    exact valid_relay_gpio_safe _ hv
  · intro _
    interval_cases i <;> decide
  · intro hcontra
    exact absurd rfl hcontra

/-! ## Claim C4: toggle-state resolution -/

/-- Claim C4 counterexample: a control command on channel light whose
state field is absent does not leave the current value unchanged — the
light toggles from false to true, because handle_control substitutes
the string toggle for an absent state field (main.c line 398). -/
theorem absent_state_toggles_cex :
    (handle_control sampleConfig sampleState
        (Json.jobj [("channel", Json.jstr "light")])).2.2.1.light_single
      ≠ sampleState.light_single := by
  decide

/-- Claim C4 as amended: toggle resolution maps the string toggle to the
negation of current, on to true, off to false, and any other string — or
a NULL state pointer — leaves the current value unchanged without error;
however a control command whose state field is absent is treated as
state toggle and negates the current value rather than leaving it
unchanged. -/
theorem toggle_resolution_spec (s : String) (cur : Bool)
    (cfg : DeviceConfig) (st : OutputState) (root : Json)
    (hs1 : s ≠ "toggle") (hs2 : s ≠ "on") (hs3 : s ≠ "off")
    (hchan : getObjectItem root "channel" = some (Json.jstr "light"))
    (hstate : getObjectItem root "state" = none) :
    parse_on_off_toggle (some "toggle") cur = !cur ∧
    parse_on_off_toggle (some "on") cur = true ∧
    parse_on_off_toggle (some "off") cur = false ∧
    parse_on_off_toggle (some s) cur = cur ∧
    parse_on_off_toggle none cur = cur ∧
    (handle_control cfg st root).2.2.1.light_single = !st.light_single := by
  refine ⟨rfl, rfl, rfl, ?_, rfl, ?_⟩
  · simp [parse_on_off_toggle, hs1, hs2, hs3]
  · simp [handle_control, hchan, hstate, jsonStr, apply_light_single,
      aux_pin_available, relay_pin_in_use, parse_on_off_toggle]

/-- Witness for toggle_resolution_spec at a concrete resolver input and
a concrete state-less light command. -/
theorem toggle_resolution_spec_witness :
    parse_on_off_toggle (some "toggle") false = !false ∧
    parse_on_off_toggle (some "on") false = true ∧
    parse_on_off_toggle (some "off") false = false ∧
    parse_on_off_toggle (some "dim") false = false ∧
    parse_on_off_toggle none false = false ∧
    (handle_control sampleConfig sampleState
        (Json.jobj [("channel", Json.jstr "light")])).2.2.1.light_single
      = !sampleState.light_single :=
  toggle_resolution_spec "dim" false sampleConfig sampleState
    (Json.jobj [("channel", Json.jstr "light")])
    (by decide) (by decide) (by decide) rfl rfl

/-! ## Claim C5: fan power and speed coupling -/

/-- Claim C5 counterexample: an accepted fan_power command that resolves
the power to off leaves the previously stored fan speed (here 60)
unchanged — fan_speed_pct does not become 0 (main.c lines 442-443 leave
speed untouched). -/
theorem fan_power_off_keeps_speed_cex :
    (handle_control sampleConfig
        { sampleState with fan_power := true, fan_speed_pct := 60 }
        (Json.jobj [("channel", Json.jstr "fan_power"),
          ("state", Json.jstr "off")])).2.2.1.fan_power = false ∧
    (handle_control sampleConfig
        { sampleState with fan_power := true, fan_speed_pct := 60 }
        (Json.jobj [("channel", Json.jstr "fan_power"),
          ("state", Json.jstr "off")])).2.2.1.fan_speed_pct ≠ 0 := by
  decide

/-- Claim C5 as amended: after every accepted control command on channel
fan or fan_speed the resulting state satisfies fan_speed_pct > 0 implies
fan_power = true; after a fan command (other than state set) that
resolves the power to off the resulting fan_speed_pct is 0; a fan_power
command however leaves the stored speed unchanged (up to the [0,100]
clamp) even when it resolves the power to off. -/
theorem fan_invariant (cfg : DeviceConfig) (st : OutputState) (root : Json) (ch : String)
    (hch : jsonStr (getObjectItem root "channel") = some ch) :
    ((ch = "fan" ∨ ch = "fan_speed") →
      0 < (handle_control cfg st root).2.2.1.fan_speed_pct →
      (handle_control cfg st root).2.2.1.fan_power = true) ∧
    (ch = "fan" →
      ((jsonStr (getObjectItem root "state")).getD "toggle") ≠ "set" →
      parse_on_off_toggle (some ((jsonStr (getObjectItem root "state")).getD "toggle"))
        st.fan_power = false →
      (handle_control cfg st root).2.2.1.fan_speed_pct = 0) ∧
    (ch = "fan_power" →
      (handle_control cfg st root).2.2.1.fan_speed_pct = clamp_int st.fan_speed_pct 0 100) := by
  refine ⟨?_, ?_, ?_⟩
  · rintro (rfl | rfl)
    · by_cases hset : ((jsonStr (getObjectItem root "state")).getD "toggle") == "set"
      · simp only [handle_control, hch]
        simp [hset, apply_fan, aux_pin_available, relay_pin_in_use, clamp_int_pos_iff]
      · by_cases hpw :
          parse_on_off_toggle (some ((jsonStr (getObjectItem root "state")).getD "toggle"))
            st.fan_power
        · simp only [handle_control, hch]
          simp [hset, hpw, apply_fan, aux_pin_available, relay_pin_in_use]
        · simp only [handle_control, hch]
          simp [hset, hpw, apply_fan, aux_pin_available, relay_pin_in_use, clamp_int]
    · simp only [handle_control, hch]
      simp [apply_fan, aux_pin_available, relay_pin_in_use, clamp_int_pos_iff]
  · rintro rfl hset hpw
    have hsetb : (((jsonStr (getObjectItem root "state")).getD "toggle") == "set") = false := by
      simpa using hset
    simp only [handle_control, hch]
    simp [hsetb, hpw, apply_fan, aux_pin_available, relay_pin_in_use, clamp_int]
  · rintro rfl
    simp only [handle_control, hch]
    simp [apply_fan, aux_pin_available, relay_pin_in_use]

/-- Witness for fan_invariant: a fan_speed set to 70 ends with the fan
powered; a fan off command zeroes the speed; a fan_power command keeps
the stored speed. -/
theorem fan_invariant_witness :
    (handle_control sampleConfig sampleState
        (Json.jobj [("channel", Json.jstr "fan_speed"),
          ("value", Json.jnum 70)])).2.2.1.fan_power = true ∧
    (handle_control sampleConfig
        { sampleState with fan_power := true, fan_speed_pct := 60 }
        (Json.jobj [("channel", Json.jstr "fan"),
          ("state", Json.jstr "off")])).2.2.1.fan_speed_pct = 0 ∧
    (handle_control sampleConfig
        { sampleState with fan_power := true, fan_speed_pct := 60 }
        (Json.jobj [("channel", Json.jstr "fan_power"),
          ("state", Json.jstr "off")])).2.2.1.fan_speed_pct
      = clamp_int 60 0 100 :=
  have h1 := fan_invariant sampleConfig sampleState
    (Json.jobj [("channel", Json.jstr "fan_speed"), ("value", Json.jnum 70)])
    "fan_speed" rfl
  have h2 := fan_invariant sampleConfig
    { sampleState with fan_power := true, fan_speed_pct := 60 }
    (Json.jobj [("channel", Json.jstr "fan"), ("state", Json.jstr "off")])
    "fan" rfl
  have h3 := fan_invariant sampleConfig
    { sampleState with fan_power := true, fan_speed_pct := 60 }
    (Json.jobj [("channel", Json.jstr "fan_power"), ("state", Json.jstr "off")])
    "fan_power" rfl
  ⟨h1.1 (Or.inr rfl) (by decide), h2.2.1 rfl (by decide) (by decide), h3.2.2 rfl⟩

/-! ## Claim C10: relay command on an unassigned (-1) slot -/

/-- Claim C10: a control command relayN with 1 le N le relay_count whose
slot N-1 carries the unassigned pin -1 (possible only for slots 4-7
after sanitization, as the second conjunct shows) reports success while
leaving the whole output state unchanged and making no driver call. -/
theorem relay_unassigned_pin_noop (cfg : DeviceConfig) (st : OutputState) (root : Json)
    (ch : String)
    (hch : jsonStr (getObjectItem root "channel") = some ch)
    (hrel : (ch.data.take 5 == "relay".data) = true)
    (hidx0 : 0 ≤ atoi (String.mk (ch.data.drop 5)) - 1)
    (hidxc : atoi (String.mk (ch.data.drop 5)) - 1 < cfg.relay_count)
    (hsan : sanitize_relay_gpio_map cfg = cfg)
    (hpin : cfg.relay_gpio.getD (atoi (String.mk (ch.data.drop 5)) - 1).toNat (-1) = -1) :
    handle_control cfg st root = (true, cfg, st, []) ∧
    ∀ (c : DeviceConfig) (i : Nat), i < 4 →
      (sanitize_relay_gpio_map c).relay_gpio.getD i (-1) ≠ -1 := by
  have hcount := sanitize_relay_gpio_map_count cfg
  rw [hsan] at hcount
  constructor
  · have hnotlow : ¬ (atoi (String.mk (ch.data.drop 5)) - 1 < 0 ∨
        cfg.relay_count ≤ atoi (String.mk (ch.data.drop 5)) - 1) := by
      omega
    have hnot8 : ¬ (atoi (String.mk (ch.data.drop 5)) - 1 < 0 ∨
        (8 : Int) ≤ atoi (String.mk (ch.data.drop 5)) - 1) := by
      omega
    simp only [handle_control, hch, hrel, if_true, if_neg hnotlow,
      apply_relay, if_neg hnot8, hsan, hpin]
    simp [valid_relay_gpio_int, valid_output_gpio_int]
  · intro c i hi
    exact sanitize_slot_lt4_ne_neg_one c i hi

/-- Witness for relay_unassigned_pin_noop: on a 5-relay configuration
with slot 5 unassigned, the command relay5 succeeds without touching
anything. -/
theorem relay_unassigned_pin_noop_witness :
    handle_control { sampleConfig with relay_count := 5 } sampleState
        (Json.jobj [("channel", Json.jstr "relay5"), ("state", Json.jstr "on")])
      = (true, { sampleConfig with relay_count := 5 }, sampleState, []) ∧
    ∀ (c : DeviceConfig) (i : Nat), i < 4 →
      (sanitize_relay_gpio_map c).relay_gpio.getD i (-1) ≠ -1 :=
  relay_unassigned_pin_noop { sampleConfig with relay_count := 5 } sampleState
    (Json.jobj [("channel", Json.jstr "relay5"), ("state", Json.jstr "on")])
    "relay5" rfl (by decide) (by decide) (by decide) (by decide) (by decide)

/-! ## Persisted store, load with legacy migration, config update
(main.c lines 261-318 and 897-970) -/

/-- A record stored under the single key (namespace cfg, key device).
Per the persistence contract, the store holds one opaque fixed-size
record per schema version and a read probes by exact size: a blob
decodes either as the current schema or as the legacy fixed-4-relay
schema, never as both. -/
inductive StoredBlob where
  | current (cfg : DeviceConfig)
  | legacy (cfg : LegacyDeviceConfig)
deriving DecidableEq

/-- Field-by-field legacy migration performed inside
load_config_from_nvs (main.c lines 279-293): copy every scalar and
string field through safe_strcpy, set relay_count to 4, copy the 4
legacy pins and set slots 4-7 to -1. -/
def migrate_legacy (l : LegacyDeviceConfig) : DeviceConfig :=
  { name := safe_strcpy l.name
    type := safe_strcpy l.type
    passcode := safe_strcpy l.passcode
    relay_count := 4
    relay_gpio := [l.relay_gpio.getD 0 (-1), l.relay_gpio.getD 1 (-1),
      l.relay_gpio.getD 2 (-1), l.relay_gpio.getD 3 (-1), -1, -1, -1, -1]
    wifi_ssid := safe_strcpy l.wifi_ssid
    wifi_pass := safe_strcpy l.wifi_pass
    ap_ssid := safe_strcpy l.ap_ssid
    ap_pass := safe_strcpy l.ap_pass
    use_static_ip := l.use_static_ip
    static_ip := safe_strcpy l.static_ip
    gateway := safe_strcpy l.gateway
    subnet_mask := safe_strcpy l.subnet_mask
    ota_key := safe_strcpy l.ota_key }

/-- Sanitization run after every successful nvs_open load path
(main.c lines 300-305): relay count, relay map, then the four Wi-Fi
text fields. -/
def full_load_sanitize (cfg : DeviceConfig) : DeviceConfig :=
  let c2 := sanitize_relay_gpio_map (sanitize_relay_count cfg)
  { c2 with
    wifi_ssid := sanitize_wifi_field c2.wifi_ssid
    wifi_pass := sanitize_wifi_field c2.wifi_pass
    ap_ssid := sanitize_wifi_field c2.ap_ssid
    ap_pass := sanitize_wifi_field c2.ap_pass }

/-- Embedding of load_config_from_nvs (main.c lines 261-306) over the
modelled store.  boot is the in-memory g_cfg value before the load
(the compiled-in defaults on a fresh boot).  A none store is the
nvs_open failure path, which sanitizes only the relay fields and keeps
the boot record.  A current blob is read directly; a legacy blob is
migrated and immediately persisted under the same key via
save_config_to_nvs (line 294) before sanitization runs.  The returned
pair is the new in-memory config and the store contents afterwards. -/
def load_config_from_nvs (boot : DeviceConfig) (store : Option StoredBlob) :
    DeviceConfig × Option StoredBlob :=
  match store with
  | none => (sanitize_relay_gpio_map (sanitize_relay_count boot), none)
  | some (.current c) => (full_load_sanitize c, some (.current c))
  | some (.legacy l) =>
    let migrated := migrate_legacy l
    (full_load_sanitize migrated, some (.current migrated))

/-- Per-slot merge of a relay_gpio array in a config update (main.c
lines 931-941): a numeric entry that is -1 or a valid relay pin
replaces the slot, anything else leaves the slot unchanged. -/
def merge_relay_gpio (gpio : List Int) (arr : List Json) : List Int :=
  (List.range 8).map (fun i =>
    match arr.get? i with
    | some (.jnum pin) =>
        if pin == -1 || valid_relay_gpio_int pin then pin else gpio.getD i (-1)
    | _ => gpio.getD i (-1))

/-- Field merge phase of config_handler (main.c lines 908-946): each
field present with the right JSON type overwrites the config (strings
through the truncating safe_strcpy), absent or mistyped fields are left
unchanged. -/
def apply_config_merge (cfg : DeviceConfig) (root : Json) : DeviceConfig :=
  let c0 := match jsonStr (getObjectItem root "name") with
    | some s => { cfg with name := safe_strcpy s }
    | none => cfg
  let c1 := match jsonStr (getObjectItem root "type") with
    | some s => { c0 with type := safe_strcpy s }
    | none => c0
  let c2 := match jsonStr (getObjectItem root "new_passcode") with
    | some s => { c1 with passcode := safe_strcpy s }
    | none => c1
  let c3 := match jsonStr (getObjectItem root "wifi_ssid") with
    | some s => { c2 with wifi_ssid := safe_strcpy s }
    | none => c2
  let c4 := match jsonStr (getObjectItem root "wifi_pass") with
    | some s => { c3 with wifi_pass := safe_strcpy s }
    | none => c3
  let c5 := match jsonStr (getObjectItem root "ap_ssid") with
    | some s => { c4 with ap_ssid := safe_strcpy s }
    | none => c4
  let c6 := match jsonStr (getObjectItem root "ap_pass") with
    | some s => { c5 with ap_pass := safe_strcpy s }
    | none => c5
  let c7 := match jsonInt (getObjectItem root "relay_count") with
    | some n => { c6 with relay_count := n }
    | none => c6
  let c8 := match jsonArr (getObjectItem root "relay_gpio") with
    | some arr => { c7 with relay_gpio := merge_relay_gpio c7.relay_gpio arr }
    | none => c7
  let c9 := match jsonStr (getObjectItem root "ota_key") with
    | some s => { c8 with ota_key := safe_strcpy s }
    | none => c8
  let c10 := match jsonBool (getObjectItem root "use_static_ip") with
    | some b => { c9 with use_static_ip := b }
    | none => c9
  let c11 := match jsonStr (getObjectItem root "static_ip") with
    | some s => { c10 with static_ip := safe_strcpy s }
    | none => c10
  let c12 := match jsonStr (getObjectItem root "gateway") with
    | some s => { c11 with gateway := safe_strcpy s }
    | none => c11
  match jsonStr (getObjectItem root "subnet_mask") with
  | some s => { c12 with subnet_mask := safe_strcpy s }
  | none => c12

/-- Sanitization run at the end of a config update (main.c lines
947-952): the four Wi-Fi text fields, then relay count, then the relay
map. -/
def sanitize_after_config (c : DeviceConfig) : DeviceConfig :=
  let c1 := { c with
    wifi_ssid := sanitize_wifi_field c.wifi_ssid
    wifi_pass := sanitize_wifi_field c.wifi_pass
    ap_ssid := sanitize_wifi_field c.ap_ssid
    ap_pass := sanitize_wifi_field c.ap_pass }
  sanitize_relay_gpio_map (sanitize_relay_count c1)

/-- Relay re-application loop of config_handler (main.c lines 956-965):
slots below the new count re-apply their logical state through
apply_relay, higher slots are forced off.  The GPIO low writes for
dropped slots are hardware effects not tracked here. -/
def config_apply_relays_aux : List Nat → DeviceConfig → OutputState → DeviceConfig × OutputState
  | [], cfg, st => (cfg, st)
  | i :: rest, cfg, st =>
    if (i : Int) < cfg.relay_count then
      let r := apply_relay cfg st (i : Int) (st.relay.getD i false)
      config_apply_relays_aux rest r.fst r.snd.fst
    else
      config_apply_relays_aux rest cfg { st with relay := st.relay.set i false }

/-- Embedding of config_handler (main.c lines 897-970): a missing or
unparsable JSON body is a 400, a failed passcode check a 401; otherwise
the provided fields are merged, the config re-sanitized, the relay
outputs re-applied, the record persisted (an untracked store effect),
and 200 with saved:true returned.  Pin reconfiguration and the web
status LED are hardware effects not tracked here. -/
def config_handler (cfg : DeviceConfig) (st : OutputState) (body : Option Json) :
    Nat × DeviceConfig × OutputState :=
  match body with
  | none => (400, cfg, st)
  | some root =>
    if check_passcode cfg root then
      let sanitized := sanitize_after_config (apply_config_merge cfg root)
      let r := config_apply_relays_aux (List.range 8) sanitized st
      (200, r.fst, r.snd)
    else (401, cfg, st)

/-! ## Claim C3: relay map invariant -/

/-- Invariant over the relay configuration: the count lies in [1,8] and
every slot that is not the unassigned marker -1 holds a pin from the
safe-pin allowlist (stated for all 8 slots, which covers the active
slots below relay_count). -/
def relay_map_ok (c : DeviceConfig) : Prop :=
  1 ≤ c.relay_count ∧ c.relay_count ≤ 8 ∧
  ∀ i : Nat, i < 8 → c.relay_gpio.getD i (-1) ≠ -1 →
    is_safe_scan_gpio_int (c.relay_gpio.getD i (-1)) = true

theorem relay_map_ok_sanitize (cfg : DeviceConfig) :
    relay_map_ok (sanitize_relay_gpio_map cfg) :=
  ⟨(sanitize_relay_gpio_map_count cfg).1, (sanitize_relay_gpio_map_count cfg).2,
    fun i hi => sanitize_slot_safe cfg i hi⟩

theorem apply_relay_cfg_cases (cfg : DeviceConfig) (st : OutputState) (idx : Int) (v : Bool) :
    (apply_relay cfg st idx v).fst = cfg ∨
      (apply_relay cfg st idx v).fst = sanitize_relay_gpio_map cfg := by
  unfold apply_relay
  dsimp only
  split_ifs <;> simp

theorem config_apply_relays_aux_preserves (l : List Nat) :
    ∀ (cfg : DeviceConfig) (st : OutputState), relay_map_ok cfg →
      relay_map_ok (config_apply_relays_aux l cfg st).fst := by
  induction l with
  | nil =>
    intro cfg st h
    exact h
  | cons i rest ih =>
    intro cfg st h
    unfold config_apply_relays_aux
    split_ifs with hc
    · rcases apply_relay_cfg_cases cfg st (i : Int) (st.relay.getD i false) with he | he
      · exact ih _ _ (by rw [he]; exact h)
      · exact ih _ _ (by rw [he]; exact relay_map_ok_sanitize cfg)
    · exact ih _ _ h

/-- Claim C3 counterexample: a successful /api/config update can leave
two distinct active relay slots assigned the same non-(-1) pin (16 in
both slot 0 and slot 1 with relay_count 2), so the pins of active slots
are not pairwise distinct; neither the merge (main.c lines 931-941) nor
sanitize_relay_gpio_map checks for duplicates. -/
theorem relay_map_duplicate_pins_cex :
    (config_handler sampleConfig sampleState
        (some (Json.jobj [("passcode", Json.jstr "x"),
          ("relay_count", Json.jnum 2),
          ("relay_gpio", Json.jarr [Json.jnum 16, Json.jnum 16, Json.jnum (-1),
            Json.jnum (-1), Json.jnum (-1), Json.jnum (-1), Json.jnum (-1),
            Json.jnum (-1)])]))).fst = 200 ∧
    (config_handler sampleConfig sampleState
        (some (Json.jobj [("passcode", Json.jstr "x"),
          ("relay_count", Json.jnum 2),
          ("relay_gpio", Json.jarr [Json.jnum 16, Json.jnum 16, Json.jnum (-1),
            Json.jnum (-1), Json.jnum (-1), Json.jnum (-1), Json.jnum (-1),
            Json.jnum (-1)])]))).2.1.relay_count = 2 ∧
    (config_handler sampleConfig sampleState
        (some (Json.jobj [("passcode", Json.jstr "x"),
          ("relay_count", Json.jnum 2),
          ("relay_gpio", Json.jarr [Json.jnum 16, Json.jnum 16, Json.jnum (-1),
            Json.jnum (-1), Json.jnum (-1), Json.jnum (-1), Json.jnum (-1),
            Json.jnum (-1)])]))).2.1.relay_gpio.getD 0 (-1) = 16 ∧
    (config_handler sampleConfig sampleState
        (some (Json.jobj [("passcode", Json.jstr "x"),
          ("relay_count", Json.jnum 2),
          ("relay_gpio", Json.jarr [Json.jnum 16, Json.jnum 16, Json.jnum (-1),
            Json.jnum (-1), Json.jnum (-1), Json.jnum (-1), Json.jnum (-1),
            Json.jnum (-1)])]))).2.1.relay_gpio.getD 1 (-1) = 16 := by
  decide

/-- Claim C3 as amended: after every configuration load and after every
successful /api/config update, relay_count lies in [1,8] and every
relay_gpio slot that is not -1 holds a pin from the safe-pin allowlist;
distinctness of active pins is however not enforced (see the
counterexample). -/
theorem relay_map_invariant_after_load_and_config :
    (∀ (boot : DeviceConfig) (store : Option StoredBlob),
        relay_map_ok (load_config_from_nvs boot store).1) ∧
    (∀ (cfg : DeviceConfig) (st : OutputState) (root : Json),
        (config_handler cfg st (some root)).fst = 200 →
        relay_map_ok (config_handler cfg st (some root)).2.1) := by
  constructor
  · intro boot store
    match store with
    | none => exact relay_map_ok_sanitize (sanitize_relay_count boot)
    | some (.current c) => exact relay_map_ok_sanitize (sanitize_relay_count c)
    | some (.legacy l) => exact relay_map_ok_sanitize (sanitize_relay_count (migrate_legacy l))
  · intro cfg st root hstatus
    by_cases hpass : check_passcode cfg root
    · have hred : (config_handler cfg st (some root)).2.1 =
          (config_apply_relays_aux (List.range 8)
            (sanitize_after_config (apply_config_merge cfg root)) st).fst := by
        simp [config_handler, hpass]
      rw [hred]
      exact config_apply_relays_aux_preserves (List.range 8) _ st (relay_map_ok_sanitize _)
    · exfalso
      have h401 : (config_handler cfg st (some root)).fst = 401 := by
        simp [config_handler, hpass]
      omega

/-- Witness for relay_map_invariant_after_load_and_config: the invariant
holds after loading a fresh (empty) store and after one concrete
successful config update. -/
theorem relay_map_invariant_witness :
    relay_map_ok (load_config_from_nvs sampleConfig none).1 ∧
    relay_map_ok ((config_handler sampleConfig sampleState
        (some (Json.jobj [("passcode", Json.jstr "x"),
          ("relay_count", Json.jnum 3)]))).2.1) :=
  ⟨relay_map_invariant_after_load_and_config.1 sampleConfig none,
    relay_map_invariant_after_load_and_config.2 sampleConfig sampleState
      (Json.jobj [("passcode", Json.jstr "x"), ("relay_count", Json.jnum 3)])
      (by decide)⟩

/-! ## Claim C7: legacy schema migration -/

/-- Claim C7: loading a persisted blob that decodes only as the legacy
fixed-4-relay schema yields a configuration with relay_count 4, slots
4-7 equal to -1, the 4 legacy pins and all scalar and string fields
copied over, and the migrated record is persisted under the same key
before sanitization, so that a subsequent load decodes it as the
current schema and reproduces the same configuration.  The hypotheses
state that the legacy fields are in-range for the bounded copies:
strings fit the 95-character buffers and are fixed by Wi-Fi
sanitization, and the four legacy pins are valid relay pins. -/
theorem legacy_migration_load (boot : DeviceConfig) (l : LegacyDeviceConfig)
    (hname : safe_strcpy l.name = l.name)
    (htype : safe_strcpy l.type = l.type)
    (hpass : safe_strcpy l.passcode = l.passcode)
    (hws : safe_strcpy l.wifi_ssid = l.wifi_ssid)
    (hwp : safe_strcpy l.wifi_pass = l.wifi_pass)
    (has : safe_strcpy l.ap_ssid = l.ap_ssid)
    (hap : safe_strcpy l.ap_pass = l.ap_pass)
    (hsi : safe_strcpy l.static_ip = l.static_ip)
    (hgw : safe_strcpy l.gateway = l.gateway)
    (hsm : safe_strcpy l.subnet_mask = l.subnet_mask)
    (hok : safe_strcpy l.ota_key = l.ota_key)
    (hws2 : sanitize_wifi_field l.wifi_ssid = l.wifi_ssid)
    (hwp2 : sanitize_wifi_field l.wifi_pass = l.wifi_pass)
    (has2 : sanitize_wifi_field l.ap_ssid = l.ap_ssid)
    (hap2 : sanitize_wifi_field l.ap_pass = l.ap_pass)
    (hpins : ∀ i : Nat, i < 4 → valid_relay_gpio_int (l.relay_gpio.getD i (-1)) = true) :
    load_config_from_nvs boot (some (StoredBlob.legacy l)) =
      ({ name := l.name
         type := l.type
         passcode := l.passcode
         relay_count := 4
         relay_gpio := [l.relay_gpio.getD 0 (-1), l.relay_gpio.getD 1 (-1),
           l.relay_gpio.getD 2 (-1), l.relay_gpio.getD 3 (-1), -1, -1, -1, -1]
         wifi_ssid := l.wifi_ssid
         wifi_pass := l.wifi_pass
         ap_ssid := l.ap_ssid
         ap_pass := l.ap_pass
         use_static_ip := l.use_static_ip
         static_ip := l.static_ip
         gateway := l.gateway
         subnet_mask := l.subnet_mask
         ota_key := l.ota_key }, some (StoredBlob.current (migrate_legacy l))) ∧
    load_config_from_nvs boot (load_config_from_nvs boot (some (StoredBlob.legacy l))).2
      = ((load_config_from_nvs boot (some (StoredBlob.legacy l))).1,
         (load_config_from_nvs boot (some (StoredBlob.legacy l))).2) := by
  have hv0 := hpins 0 (by omega)
  have hv1 := hpins 1 (by omega)
  have hv2 := hpins 2 (by omega)
  have hv3 := hpins 3 (by omega)
  simp only [List.getD_eq_getElem?_getD] at hv0 hv1 hv2 hv3
  constructor
  · simp only [load_config_from_nvs, full_load_sanitize, migrate_legacy,
      sanitize_relay_count, sanitize_relay_gpio_map]
    simp [hname, htype, hpass, hws, hwp, has, hap, hsi, hgw, hsm, hok,
      hws2, hwp2, has2, hap2, hv0, hv1, hv2, hv3, clamp_int,
      List.range_succ]
  · rfl

/-- Concrete legacy record used to exercise the migration path. -/
def sampleLegacy : LegacyDeviceConfig :=
  { name := "dev"
    type := "relay_switch"
    passcode := "x"
    relay_gpio := [16, 17, 18, 19]
    wifi_ssid := "net"
    wifi_pass := "netpass"
    ap_ssid := "ap"
    ap_pass := "appass12"
    use_static_ip := false
    static_ip := ""
    gateway := ""
    subnet_mask := ""
    ota_key := "secret" }

/-- Witness for legacy_migration_load on the concrete sampleLegacy
record. -/
theorem legacy_migration_load_witness :
    load_config_from_nvs sampleConfig (some (StoredBlob.legacy sampleLegacy)) =
      ({ name := sampleLegacy.name
         type := sampleLegacy.type
         passcode := sampleLegacy.passcode
         relay_count := 4
         relay_gpio := [sampleLegacy.relay_gpio.getD 0 (-1), sampleLegacy.relay_gpio.getD 1 (-1),
           sampleLegacy.relay_gpio.getD 2 (-1), sampleLegacy.relay_gpio.getD 3 (-1),
           -1, -1, -1, -1]
         wifi_ssid := sampleLegacy.wifi_ssid
         wifi_pass := sampleLegacy.wifi_pass
         ap_ssid := sampleLegacy.ap_ssid
         ap_pass := sampleLegacy.ap_pass
         use_static_ip := sampleLegacy.use_static_ip
         static_ip := sampleLegacy.static_ip
         gateway := sampleLegacy.gateway
         subnet_mask := sampleLegacy.subnet_mask
         ota_key := sampleLegacy.ota_key },
       some (StoredBlob.current (migrate_legacy sampleLegacy))) ∧
    load_config_from_nvs sampleConfig
        (load_config_from_nvs sampleConfig (some (StoredBlob.legacy sampleLegacy))).2
      = ((load_config_from_nvs sampleConfig (some (StoredBlob.legacy sampleLegacy))).1,
         (load_config_from_nvs sampleConfig (some (StoredBlob.legacy sampleLegacy))).2) :=
  legacy_migration_load sampleConfig sampleLegacy
    (by decide) (by decide) (by decide) (by decide) (by decide) (by decide) (by decide)
    (by decide) (by decide) (by decide) (by decide) (by decide) (by decide) (by decide)
    (by decide)
    (fun i hi => by interval_cases i <;> decide)

/-! ## OTA pipeline (main.c lines 248-257 and 1027-1210) -/

/-- One hexadecimal digit from the lowercase alphabet used by
hex_encode (main.c line 249). -/
def hexDigit (n : Nat) : Char :=
  "0123456789abcdef".data.getD n 'x'

/-- Embedding of hex_encode (main.c lines 248-257): two lowercase hex
characters per byte, high nibble first. -/
def hex_encode (bytes : List Nat) : String :=
  String.mk ((bytes.map (fun b => [hexDigit ((b / 16) % 16), hexDigit (b % 16)])).flatten)

/-- A fixed 32-byte output buffer as filled by the mbedtls digest
primitives: the leaf result is truncated or zero-padded to exactly 32
bytes. -/
def padTo32 (l : List Nat) : List Nat :=
  (l ++ List.replicate 32 0).take 32

/-- Truncating copy into an n+1-byte C string buffer. -/
def strTake (n : Nat) (s : String) : String :=
  String.mk (s.data.take n)

/-- Embedding of compute_manifest_signature (main.c lines 1027-1039).
The HMAC-SHA-256 primitive is a leaf capability passed in as hmac (key
and message to a 32-byte digest).  The message is built by snprintf
into a 256-byte buffer, so it is the concatenation
sha256 ++ ":" ++ version ++ ":" ++ device_type truncated to 255
characters. -/
def compute_manifest_signature (hmac : String → String → List Nat)
    (cfg : DeviceConfig) (sha256 version device_type : String) : String :=
  let msg := strTake 255 (sha256 ++ ":" ++ version ++ ":" ++ device_type)
  hex_encode (padTo32 (hmac cfg.ota_key msg))

/-- Embedding of verify_manifest (main.c lines 1063-1091) on a parsed
manifest (none models a cJSON_Parse failure): all five fields must be
strings, algorithm must equal hmac-sha256, device_type must match the
configured type or the wildcard any, and the recomputed signature must
equal the signature field exactly; on success the sha256 field is
copied out through a 65-byte buffer (so truncated to 64 characters). -/
def verify_manifest (hmac : String → String → List Nat) (cfg : DeviceConfig)
    (parsed : Option Json) : Option String :=
  match parsed with
  | none => none
  | some root =>
    match jsonStr (getObjectItem root "algorithm"), jsonStr (getObjectItem root "sha256"),
        jsonStr (getObjectItem root "version"), jsonStr (getObjectItem root "device_type"),
        jsonStr (getObjectItem root "signature") with
    | some algo, some sha, some version, some dty, some sig =>
      if algo ≠ "hmac-sha256" then none
      else if dty ≠ cfg.type ∧ dty ≠ "any" then none
      else if compute_manifest_signature hmac cfg sha version dty = sig then
        some (strTake 64 sha)
      else none
    | _, _, _, _, _ => none

/-- Observable actions of one OTA attempt: the manifest HTTP GET, the
firmware HTTP GET, each esp_ota_write of a received chunk, marking the
partition bootable (esp_ota_set_boot_partition) and the final
restart. -/
inductive OtaEvent where
  | fetchManifest
  | fetchFirmware
  | partWrite (chunk : List Nat)
  | markBootable
  | restartDevice
deriving DecidableEq

/-- Embedding of ota_download_and_apply (main.c lines 1093-1170).  The
SHA-256 primitive is the leaf sha256fn; the firmware transfer is
either none (HTTP open failure, nothing written) or the list of chunks
delivered by the client; partition acquisition and chunk writes are
assumed to succeed (their failure paths abort with fewer events and no
bootable mark).  The running digest over all received bytes is
hex-encoded and compared with the expected hash; only on an exact match
is the partition finalized, marked bootable and the device
restarted. -/
def ota_download_and_apply (sha256fn : List Nat → List Nat)
    (firmware : Option (List (List Nat))) (expected_sha : String) :
    Bool × List OtaEvent :=
  match firmware with
  | none => (false, [.fetchFirmware])
  | some chunks =>
    let events := OtaEvent.fetchFirmware :: chunks.map OtaEvent.partWrite
    let sha_hex := hex_encode (padTo32 (sha256fn chunks.flatten))
    if sha_hex ≠ expected_sha then (false, events)
    else (true, events ++ [OtaEvent.markBootable, OtaEvent.restartDevice])

/-- Embedding of ota_apply_handler (main.c lines 1172-1210): body
parsing and passcode and URL checks, then the manifest fetch (manifest
is none on HTTP failure, otherwise the cJSON_Parse result of the
fetched text), then verify_manifest, then ota_download_and_apply.
Returns the HTTP status and the recorded OTA events in order. -/
def ota_apply_handler (hmac : String → String → List Nat)
    (sha256fn : List Nat → List Nat) (cfg : DeviceConfig) (body : Option Json)
    (manifest : Option (Option Json)) (firmware : Option (List (List Nat))) :
    Nat × List OtaEvent :=
  match body with
  | none => (400, [])
  | some root =>
    if check_passcode cfg root then
      match jsonStr (getObjectItem root "firmware_url"),
          jsonStr (getObjectItem root "manifest_url") with
      | some _, some _ =>
        match manifest with
        | none => (500, [.fetchManifest])
        | some parsed =>
          match verify_manifest hmac cfg parsed with
          | none => (401, [.fetchManifest])
          | some expected =>
            let r := ota_download_and_apply sha256fn firmware expected
            (if r.fst then 200 else 500, OtaEvent.fetchManifest :: r.snd)
      | _, _ => (400, [])
    else (401, [])

/-! ## Remaining HTTP handlers (main.c lines 885-895, 972-1025) -/

/-- Embedding of pair_handler (main.c lines 885-895): 400 on a missing
or unparsable body, 401 on a failed passcode check, 200 otherwise. -/
def pair_handler (cfg : DeviceConfig) (body : Option Json) : Nat :=
  match body with
  | none => 400
  | some root => if check_passcode cfg root then 200 else 401

/-- Embedding of control_handler (main.c lines 972-987): 400 on a
missing or unparsable body, 401 on a failed passcode check, 400 when
handle_control rejects the command, 200 on success. -/
def control_handler (cfg : DeviceConfig) (st : OutputState) (body : Option Json) :
    Nat × DeviceConfig × OutputState × List DriverCall :=
  match body with
  | none => (400, cfg, st, [])
  | some root =>
    if check_passcode cfg root then
      let r := handle_control cfg st root
      (if r.fst then 200 else 400, r.snd)
    else (401, cfg, st, [])

/-- Embedding of gpio_test_handler (main.c lines 989-1025): after body
and passcode checks, gpio and value must be numbers, the pin must be a
valid output GPIO, and the pin is then driven to the boolean level. -/
def gpio_test_handler (cfg : DeviceConfig) (body : Option Json) : Nat × List DriverCall :=
  match body with
  | none => (400, [])
  | some root =>
    if check_passcode cfg root then
      match jsonInt (getObjectItem root "gpio"), jsonInt (getObjectItem root "value") with
      | some pin, some value =>
        let level : Int := if value ≠ 0 then 1 else 0
        if pin < 0 ∨ 39 < pin ∨ valid_output_gpio_int pin = false then (400, [])
        else (200, [.gpioSetLevel pin level])
      | _, _ => (400, [])
    else (401, [])

/-! ## Claim C1: manifest signature check -/

/-- Concrete stand-in for the leaf HMAC primitive in the concrete runs
below: a 32-byte digest whose first byte is the message length modulo
256, so that (like the real HMAC-SHA-256) it distinguishes the
truncated message from the full one. -/
def hmacLenDigest (key msg : String) : List Nat :=
  (msg.data.length + key.data.length * 0) % 256 :: List.replicate 31 0

/-- A 64-character hex-looking sha256 field for the concrete manifest
below. -/
def cexSha : String :=
  String.mk (List.replicate 64 'a')

/-- A 200-character version field, long enough to overflow the 256-byte
message buffer of compute_manifest_signature. -/
def cexVersion : String :=
  String.mk (List.replicate 200 'b')

/-- The signature the device computes for the concrete manifest below:
the HMAC of the message truncated to 255 characters. -/
def cexSignature : String :=
  compute_manifest_signature hmacLenDigest sampleConfig cexSha cexVersion "any"

/-- The concrete manifest exercising message truncation: its
sha256:version:device_type concatenation is 269 characters long. -/
def cexManifest : Json :=
  Json.jobj [("algorithm", Json.jstr "hmac-sha256"), ("sha256", Json.jstr cexSha),
    ("version", Json.jstr cexVersion), ("device_type", Json.jstr "any"),
    ("signature", Json.jstr cexSignature)]

set_option maxRecDepth 100000 in
/-- Claim C1 counterexample: the device accepts a manifest whose
signature field is the HMAC of the message truncated to 255 bytes by
snprintf (main.c line 1030), which differs from the HMAC over the full
message sha256 ++ ":" ++ version ++ ":" ++ device_type when that
concatenation exceeds 255 characters — so acceptance does not imply
equality with the hex HMAC over the full message. -/
theorem verify_manifest_truncated_message_cex :
    verify_manifest hmacLenDigest sampleConfig (some cexManifest) = some cexSha ∧
    cexSignature ≠
      hex_encode (padTo32 (hmacLenDigest sampleConfig.ota_key
        (cexSha ++ ":" ++ cexVersion ++ ":" ++ "any"))) := by
  decide

/-- Claim C1 as amended: for every OTA manifest, the device accepts it
only if the hex-encoded HMAC-SHA-256 over the message
sha256 ++ ":" ++ version ++ ":" ++ device_type truncated to 255
characters (which is the full concatenation whenever it fits the
256-byte buffer), keyed with ota_key, is exactly equal —
case-sensitive string comparison — to the manifest signature field; a
signature differing in any character, including hex letter case, is
rejected. -/
theorem verify_manifest_accepts_only_exact_hmac
    (hmac : String → String → List Nat) (cfg : DeviceConfig) (root : Json)
    (algo sha version dty sig : String)
    (ha : jsonStr (getObjectItem root "algorithm") = some algo)
    (hs : jsonStr (getObjectItem root "sha256") = some sha)
    (hv : jsonStr (getObjectItem root "version") = some version)
    (hd : jsonStr (getObjectItem root "device_type") = some dty)
    (hg : jsonStr (getObjectItem root "signature") = some sig) :
    ((∃ s, verify_manifest hmac cfg (some root) = some s) ↔
      (algo = "hmac-sha256" ∧ (dty = cfg.type ∨ dty = "any") ∧
        sig = compute_manifest_signature hmac cfg sha version dty)) ∧
    ((sha ++ ":" ++ version ++ ":" ++ dty).data.length ≤ 255 →
      compute_manifest_signature hmac cfg sha version dty =
        hex_encode (padTo32 (hmac cfg.ota_key (sha ++ ":" ++ version ++ ":" ++ dty)))) := by
  constructor
  · simp only [verify_manifest, ha, hs, hv, hd, hg]
    by_cases h1 : algo = "hmac-sha256"
    · by_cases h2 : dty = cfg.type ∨ dty = "any"
      · by_cases h3 : compute_manifest_signature hmac cfg sha version dty = sig
        · simp [h1, h2, h3, eq_comm]
          tauto
        · simp [h1, h3, eq_comm]
          intro _ hsig
          exact h3 hsig.symm
      · push_neg at h2
        simp [h1, h2.1, h2.2]
    · simp [h1]
  · intro hlen
    unfold compute_manifest_signature strTake
    rw [List.take_of_length_le hlen]

/-- Witness for verify_manifest_accepts_only_exact_hmac at a concrete
short manifest: acceptance coincides with exact equality against the
recomputed signature, and the short message is not truncated. -/
theorem verify_manifest_accepts_only_exact_hmac_witness :
    ((∃ s, verify_manifest hmacLenDigest sampleConfig
        (some (Json.jobj [("algorithm", Json.jstr "hmac-sha256"),
          ("sha256", Json.jstr "aa"), ("version", Json.jstr "1"),
          ("device_type", Json.jstr "any"),
          ("signature", Json.jstr (compute_manifest_signature hmacLenDigest sampleConfig
            "aa" "1" "any"))])) = some s) ↔
      ("hmac-sha256" = "hmac-sha256" ∧
        ("any" = sampleConfig.type ∨ "any" = "any") ∧
        compute_manifest_signature hmacLenDigest sampleConfig "aa" "1" "any" =
          compute_manifest_signature hmacLenDigest sampleConfig "aa" "1" "any")) ∧
    (("aa" ++ ":" ++ "1" ++ ":" ++ "any").data.length ≤ 255 →
      compute_manifest_signature hmacLenDigest sampleConfig "aa" "1" "any" =
        hex_encode (padTo32 (hmacLenDigest sampleConfig.ota_key
          ("aa" ++ ":" ++ "1" ++ ":" ++ "any")))) :=
  verify_manifest_accepts_only_exact_hmac hmacLenDigest sampleConfig
    (Json.jobj [("algorithm", Json.jstr "hmac-sha256"),
      ("sha256", Json.jstr "aa"), ("version", Json.jstr "1"),
      ("device_type", Json.jstr "any"),
      ("signature", Json.jstr (compute_manifest_signature hmacLenDigest sampleConfig
        "aa" "1" "any"))])
    "hmac-sha256" "aa" "1" "any"
    (compute_manifest_signature hmacLenDigest sampleConfig "aa" "1" "any")
    rfl rfl rfl rfl rfl

/-! ## Claim C2: ordering of the OTA hard gates -/

theorem verify_none_of_bad_algo (hmac : String → String → List Nat)
    (cfg : DeviceConfig) (root : Json) (algo : String)
    (ha : jsonStr (getObjectItem root "algorithm") = some algo)
    (hne : algo ≠ "hmac-sha256") :
    verify_manifest hmac cfg (some root) = none := by
  unfold verify_manifest
  rcases hsha : jsonStr (getObjectItem root "sha256") with _ | s <;>
    rcases hv : jsonStr (getObjectItem root "version") with _ | v <;>
      rcases hd : jsonStr (getObjectItem root "device_type") with _ | d <;>
        rcases hg : jsonStr (getObjectItem root "signature") with _ | g <;>
          simp [ha, hsha, hv, hd, hg, hne]

theorem verify_none_of_sig_mismatch (hmac : String → String → List Nat)
    (cfg : DeviceConfig) (root : Json) (algo sha version dty sig : String)
    (ha : jsonStr (getObjectItem root "algorithm") = some algo)
    (hs : jsonStr (getObjectItem root "sha256") = some sha)
    (hv : jsonStr (getObjectItem root "version") = some version)
    (hd : jsonStr (getObjectItem root "device_type") = some dty)
    (hg : jsonStr (getObjectItem root "signature") = some sig)
    (hne : sig ≠ compute_manifest_signature hmac cfg sha version dty) :
    verify_manifest hmac cfg (some root) = none := by
  simp only [verify_manifest, ha, hs, hv, hd, hg]
  split_ifs with h1 h2 h3 <;> first | rfl | exact absurd h3.symm hne

theorem ota_handler_events_of_verify_none (hmac : String → String → List Nat)
    (sha256fn : List Nat → List Nat) (cfg : DeviceConfig) (body : Option Json)
    (manifest : Option (Option Json)) (firmware : Option (List (List Nat)))
    (hm : ∀ parsed, manifest = some parsed → verify_manifest hmac cfg parsed = none) :
    (ota_apply_handler hmac sha256fn cfg body manifest firmware).fst ≠ 200 ∧
    ((ota_apply_handler hmac sha256fn cfg body manifest firmware).snd = [] ∨
     (ota_apply_handler hmac sha256fn cfg body manifest firmware).snd
       = [OtaEvent.fetchManifest]) := by
  rcases body with _ | root
  · simp [ota_apply_handler]
  · by_cases hpass : check_passcode cfg root
    · rcases hfu : jsonStr (getObjectItem root "firmware_url") with _ | fu <;>
        rcases hmu : jsonStr (getObjectItem root "manifest_url") with _ | mu <;>
          rcases manifest with _ | parsed <;>
            first
              | simp [ota_apply_handler, hpass, hfu, hmu, hm _ rfl]
              | simp [ota_apply_handler, hpass, hfu, hmu]
    · simp [ota_apply_handler, hpass]

/-- Claim C2: a manifest whose algorithm field is not exactly
hmac-sha256 is rejected with no firmware fetch; a recomputed-signature
mismatch aborts with no partition write; and a correct signature with a
firmware SHA-256 mismatch ends in a 500 after the download — the
firmware was fetched but the partition is never marked bootable. -/
theorem ota_pipeline_gates (hmac : String → String → List Nat)
    (sha256fn : List Nat → List Nat) (cfg : DeviceConfig) (body : Option Json)
    (manifest : Option (Option Json)) (firmware : Option (List (List Nat))) :
    (∀ (root : Json) (algo : String),
        manifest = some (some root) →
        jsonStr (getObjectItem root "algorithm") = some algo →
        algo ≠ "hmac-sha256" →
        (ota_apply_handler hmac sha256fn cfg body manifest firmware).fst ≠ 200 ∧
        OtaEvent.fetchFirmware ∉
          (ota_apply_handler hmac sha256fn cfg body manifest firmware).snd) ∧
    (∀ (root : Json) (algo sha version dty sig : String),
        manifest = some (some root) →
        jsonStr (getObjectItem root "algorithm") = some algo →
        jsonStr (getObjectItem root "sha256") = some sha →
        jsonStr (getObjectItem root "version") = some version →
        jsonStr (getObjectItem root "device_type") = some dty →
        jsonStr (getObjectItem root "signature") = some sig →
        sig ≠ compute_manifest_signature hmac cfg sha version dty →
        (ota_apply_handler hmac sha256fn cfg body manifest firmware).fst ≠ 200 ∧
        ∀ chunk, OtaEvent.partWrite chunk ∉
          (ota_apply_handler hmac sha256fn cfg body manifest firmware).snd) ∧
    (∀ (rootB : Json) (parsed : Option Json) (expected : String)
        (chunks : List (List Nat)),
        body = some rootB →
        check_passcode cfg rootB = true →
        (∃ fu, jsonStr (getObjectItem rootB "firmware_url") = some fu) →
        (∃ mu, jsonStr (getObjectItem rootB "manifest_url") = some mu) →
        manifest = some parsed →
        verify_manifest hmac cfg parsed = some expected →
        firmware = some chunks →
        hex_encode (padTo32 (sha256fn chunks.flatten)) ≠ expected →
        (ota_apply_handler hmac sha256fn cfg body manifest firmware).fst = 500 ∧
        OtaEvent.fetchFirmware ∈
          (ota_apply_handler hmac sha256fn cfg body manifest firmware).snd ∧
        OtaEvent.markBootable ∉
          (ota_apply_handler hmac sha256fn cfg body manifest firmware).snd) := by
  refine ⟨?_, ?_, ?_⟩
  · intro root algo hman ha hne
    have hnone : ∀ parsed, manifest = some parsed →
        verify_manifest hmac cfg parsed = none := by
      intro parsed hp
      rw [hman] at hp
      cases Option.some.inj hp
      exact verify_none_of_bad_algo hmac cfg root algo ha hne
    obtain ⟨hst, hev⟩ := ota_handler_events_of_verify_none hmac sha256fn cfg body
      manifest firmware hnone
    refine ⟨hst, ?_⟩
    rcases hev with hev | hev <;> simp [hev]
  · intro root algo sha version dty sig hman ha hs hv hd hg hne
    have hnone : ∀ parsed, manifest = some parsed →
        verify_manifest hmac cfg parsed = none := by
      intro parsed hp
      rw [hman] at hp
      cases Option.some.inj hp
      exact verify_none_of_sig_mismatch hmac cfg root algo sha version dty sig
        ha hs hv hd hg hne
    obtain ⟨hst, hev⟩ := ota_handler_events_of_verify_none hmac sha256fn cfg body
      manifest firmware hnone
    refine ⟨hst, ?_⟩
    intro chunk
    rcases hev with hev | hev <;> simp [hev]
  · rintro rootB parsed expected chunks rfl hpass ⟨fu, hfu⟩ ⟨mu, hmu⟩ rfl hver rfl hne
    simp only [ota_apply_handler, hpass, if_true, hfu, hmu, hver,
      ota_download_and_apply, if_pos hne]
    simp [List.mem_cons, List.mem_map]

/-- Concrete OTA request body with the right passcode and both URLs. -/
def otaBody : Json :=
  Json.jobj [("passcode", Json.jstr "x"), ("firmware_url", Json.jstr "http://f"),
    ("manifest_url", Json.jstr "http://m")]

/-- Concrete stand-in for the leaf SHA-256 primitive: the all-zero
digest. -/
def zeroSha : List Nat → List Nat :=
  fun _ => List.replicate 32 0

/-- Manifest with a wrong algorithm field. -/
def badAlgoManifest : Json :=
  Json.jobj [("algorithm", Json.jstr "md5"), ("sha256", Json.jstr "aa"),
    ("version", Json.jstr "1"), ("device_type", Json.jstr "any"),
    ("signature", Json.jstr "00")]

/-- Manifest whose signature does not match the recomputed one. -/
def badSigManifest : Json :=
  Json.jobj [("algorithm", Json.jstr "hmac-sha256"), ("sha256", Json.jstr "aa"),
    ("version", Json.jstr "1"), ("device_type", Json.jstr "any"),
    ("signature", Json.jstr "00")]

/-- Manifest with a correct signature (under the hmacLenDigest leaf)
whose sha256 field will not match the downloaded bytes. -/
def goodManifest : Json :=
  Json.jobj [("algorithm", Json.jstr "hmac-sha256"), ("sha256", Json.jstr "aa"),
    ("version", Json.jstr "1"), ("device_type", Json.jstr "any"),
    ("signature", Json.jstr (compute_manifest_signature hmacLenDigest sampleConfig
      "aa" "1" "any"))]

/-- Witness for ota_pipeline_gates at three concrete runs: wrong
algorithm, wrong signature, and correct signature with a firmware hash
mismatch. -/
theorem ota_pipeline_gates_witness :
    ((ota_apply_handler hmacLenDigest zeroSha sampleConfig (some otaBody)
        (some (some badAlgoManifest)) none).fst ≠ 200 ∧
      OtaEvent.fetchFirmware ∉ (ota_apply_handler hmacLenDigest zeroSha sampleConfig
        (some otaBody) (some (some badAlgoManifest)) none).snd) ∧
    ((ota_apply_handler hmacLenDigest zeroSha sampleConfig (some otaBody)
        (some (some badSigManifest)) none).fst ≠ 200 ∧
      ∀ chunk, OtaEvent.partWrite chunk ∉ (ota_apply_handler hmacLenDigest zeroSha
        sampleConfig (some otaBody) (some (some badSigManifest)) none).snd) ∧
    ((ota_apply_handler hmacLenDigest zeroSha sampleConfig (some otaBody)
        (some (some goodManifest)) (some [[1, 2, 3]])).fst = 500 ∧
      OtaEvent.fetchFirmware ∈ (ota_apply_handler hmacLenDigest zeroSha sampleConfig
        (some otaBody) (some (some goodManifest)) (some [[1, 2, 3]])).snd ∧
      OtaEvent.markBootable ∉ (ota_apply_handler hmacLenDigest zeroSha sampleConfig
        (some otaBody) (some (some goodManifest)) (some [[1, 2, 3]])).snd) :=
  ⟨(ota_pipeline_gates hmacLenDigest zeroSha sampleConfig (some otaBody)
      (some (some badAlgoManifest)) none).1 badAlgoManifest "md5" rfl rfl (by decide),
   (ota_pipeline_gates hmacLenDigest zeroSha sampleConfig (some otaBody)
      (some (some badSigManifest)) none).2.1 badSigManifest "hmac-sha256" "aa" "1" "any"
      "00" rfl rfl rfl rfl rfl rfl (by decide),
   (ota_pipeline_gates hmacLenDigest zeroSha sampleConfig (some otaBody)
      (some (some goodManifest)) (some [[1, 2, 3]])).2.2 otaBody (some goodManifest)
      "aa" [[1, 2, 3]] rfl (by decide) ⟨"http://f", rfl⟩ ⟨"http://m", rfl⟩ rfl
      (by decide) rfl (by decide)⟩

/-! ## Connectivity state machine (main.c lines 1212-1237, 1317-1325) -/

/-- Asynchronous radio events handled by wifi_event_handler. -/
inductive WifiEvent where
  | staStart
  | staDisconnected (reason : Int)
  | staGotIP
deriving DecidableEq

/-- Action requested by the handler: an esp_wifi_connect reconnect. -/
inductive WifiAction where
  | connect
deriving DecidableEq

/-- Connectivity state mutated by wifi_event_handler: the retry counter
g_sta_fail_count, g_last_wifi_disc_reason and the two event-group bits
WIFI_CONNECTED_BIT and WIFI_FAIL_BIT. -/
structure ConnState where
  fail_count : Int
  last_reason : Int
  connected_bit : Bool
  fail_bit : Bool
deriving DecidableEq

/-- Embedding of wifi_event_handler (main.c lines 1212-1237): STA start
issues a connect; a disconnect records the reason, increments the
counter and reconnects while the counter stays below 5, raising the
fail bit at 5; an acquired IP resets the counter and reason to 0 and
sets the connected bit. -/
def wifi_event_step (s : ConnState) (e : WifiEvent) : ConnState × List WifiAction :=
  match e with
  | .staStart => (s, [.connect])
  | .staDisconnected r =>
    let s1 := { s with last_reason := r, fail_count := s.fail_count + 1 }
    if s1.fail_count < 5 then (s1, [.connect])
    else ({ s1 with fail_bit := true }, [])
  | .staGotIP => ({ s with fail_count := 0, last_reason := 0, connected_bit := true }, [])

/-- Run a sequence of radio events, collecting the requested reconnect
actions in order. -/
def run_wifi_events : ConnState → List WifiEvent → ConnState × List WifiAction
  | s, [] => (s, [])
  | s, e :: rest =>
    let r1 := wifi_event_step s e
    let r2 := run_wifi_events r1.fst rest
    (r2.fst, r1.snd ++ r2.snd)

/-- Outcome of the blocking wait in start_wifi_station_or_ap (main.c
lines 1317-1324): with the connected bit the station link is kept,
otherwise the station is stopped and the access-point fallback is
started. -/
inductive StationOutcome where
  | stationConnected
  | apFallback
deriving DecidableEq

/-- Decision taken after xEventGroupWaitBits (main.c lines 1317-1324). -/
def station_wait_outcome (s : ConnState) : StationOutcome :=
  if s.connected_bit then .stationConnected else .apFallback

/-! ## Claim C6: five consecutive disconnects trigger fallback -/

theorem run_disc_grow (r : Int) :
    ∀ (n : Nat) (s : ConnState), s.fail_count + n < 5 →
      (run_wifi_events s (List.replicate n (WifiEvent.staDisconnected r))).fst.fail_count
          = s.fail_count + n ∧
      (run_wifi_events s (List.replicate n (WifiEvent.staDisconnected r))).fst.fail_bit
          = s.fail_bit ∧
      (run_wifi_events s (List.replicate n (WifiEvent.staDisconnected r))).fst.connected_bit
          = s.connected_bit ∧
      (run_wifi_events s (List.replicate n (WifiEvent.staDisconnected r))).snd
          = List.replicate n WifiAction.connect := by
  intro n
  induction n with
  | zero =>
    intro s h
    simp [run_wifi_events]
  | succ n ih =>
    intro s h
    have hlt : s.fail_count + 1 < 5 := by omega
    have hstep : wifi_event_step s (WifiEvent.staDisconnected r) =
        ({ s with last_reason := r, fail_count := s.fail_count + 1 }, [WifiAction.connect]) := by
      simp [wifi_event_step, hlt]
    have hrest := ih { s with last_reason := r, fail_count := s.fail_count + 1 }
      (by simp; omega)
    rw [List.replicate_succ]
    simp only [run_wifi_events, hstep]
    refine ⟨?_, ?_, ?_, ?_⟩
    · rw [hrest.1]
      simp
      omega
    · exact hrest.2.1
    · exact hrest.2.2.1
    · rw [hrest.2.2.2, List.replicate_succ]
      rfl

theorem run_wifi_events_append (l1 l2 : List WifiEvent) :
    ∀ s : ConnState,
      run_wifi_events s (l1 ++ l2) =
        ((run_wifi_events (run_wifi_events s l1).fst l2).fst,
         (run_wifi_events s l1).snd ++ (run_wifi_events (run_wifi_events s l1).fst l2).snd) := by
  induction l1 with
  | nil =>
    intro s
    simp [run_wifi_events]
  | cons e rest ih =>
    intro s
    simp only [List.cons_append, run_wifi_events]
    have hx : rest.append l2 = rest ++ l2 := rfl
    rw [hx, ih]
    simp [List.append_assoc]

/-- Claim C6: from a state with a zero failure counter, each of the
first 4 consecutive station disconnect events (with no intervening IP
acquisition) triggers an automatic reconnect and leaves the failure
signal down; the 5th raises the failure signal, issues no further
reconnect, and the subsequent wait decision is the access-point
fallback; every successful IP acquisition resets the failure counter to
0 and clears the last disconnect reason. -/
theorem wifi_five_disconnects_fallback (s : ConnState) (r : Int) (n : Nat)
    (h0 : s.fail_count = 0) (hf : s.fail_bit = false) (hc : s.connected_bit = false) :
    (n ≤ 4 →
      (run_wifi_events s (List.replicate n (WifiEvent.staDisconnected r))).fst.fail_bit
          = false ∧
      (run_wifi_events s (List.replicate n (WifiEvent.staDisconnected r))).snd
          = List.replicate n WifiAction.connect) ∧
    (n = 5 →
      (run_wifi_events s (List.replicate n (WifiEvent.staDisconnected r))).fst.fail_bit
          = true ∧
      (run_wifi_events s (List.replicate n (WifiEvent.staDisconnected r))).snd
          = List.replicate 4 WifiAction.connect ∧
      station_wait_outcome
          (run_wifi_events s (List.replicate n (WifiEvent.staDisconnected r))).fst
        = StationOutcome.apFallback) ∧
    (∀ s' : ConnState,
      (wifi_event_step s' WifiEvent.staGotIP).fst.fail_count = 0 ∧
      (wifi_event_step s' WifiEvent.staGotIP).fst.last_reason = 0) := by
  refine ⟨?_, ?_, ?_⟩
  · intro hn
    obtain ⟨_, hb, _, ha⟩ := run_disc_grow r n s (by omega)
    exact ⟨hb.trans hf, ha⟩
  · rintro rfl
    obtain ⟨hcnt, hb, hcb, ha⟩ := run_disc_grow r 4 s (by omega)
    have hone : ∀ t : ConnState, ¬ (t.fail_count + 1 < 5) →
        run_wifi_events t [WifiEvent.staDisconnected r] =
          ({ fail_count := t.fail_count + 1, last_reason := r,
             connected_bit := t.connected_bit, fail_bit := true }, []) := by
      intro t ht
      simp [run_wifi_events, wifi_event_step, ht]
    have hnot : ¬ ((run_wifi_events s
        (List.replicate 4 (WifiEvent.staDisconnected r))).fst.fail_count + 1 < 5) := by
      omega
    rw [show (5 : Nat) = 4 + 1 from rfl, List.replicate_succ', run_wifi_events_append,
      hone _ hnot]
    refine ⟨rfl, ?_, ?_⟩
    · rw [ha]
      simp
    · simp only [station_wait_outcome]
      rw [hcb, hc]
      rfl
  · intro s'
    simp [wifi_event_step]

/-- Witness for wifi_five_disconnects_fallback at runs of 3 and 5
consecutive disconnects from the reset state. -/
theorem wifi_five_disconnects_fallback_witness :
    ((run_wifi_events ⟨0, 7, false, false⟩
        (List.replicate 3 (WifiEvent.staDisconnected 2))).fst.fail_bit = false ∧
      (run_wifi_events ⟨0, 7, false, false⟩
        (List.replicate 3 (WifiEvent.staDisconnected 2))).snd
        = List.replicate 3 WifiAction.connect) ∧
    ((run_wifi_events ⟨0, 7, false, false⟩
        (List.replicate 5 (WifiEvent.staDisconnected 2))).fst.fail_bit = true ∧
      (run_wifi_events ⟨0, 7, false, false⟩
        (List.replicate 5 (WifiEvent.staDisconnected 2))).snd
        = List.replicate 4 WifiAction.connect ∧
      station_wait_outcome (run_wifi_events ⟨0, 7, false, false⟩
        (List.replicate 5 (WifiEvent.staDisconnected 2))).fst
        = StationOutcome.apFallback) ∧
    (∀ s' : ConnState,
      (wifi_event_step s' WifiEvent.staGotIP).fst.fail_count = 0 ∧
      (wifi_event_step s' WifiEvent.staGotIP).fst.last_reason = 0) :=
  ⟨(wifi_five_disconnects_fallback ⟨0, 7, false, false⟩ 2 3 rfl rfl rfl).1 (by omega),
   (wifi_five_disconnects_fallback ⟨0, 7, false, false⟩ 2 5 rfl rfl rfl).2.1 rfl,
   (wifi_five_disconnects_fallback ⟨0, 7, false, false⟩ 2 5 rfl rfl rfl).2.2⟩

/-! ## Claim C8: status codes of the mutating API -/

/-- Claim C8 counterexample: a control request with well-formed JSON
whose passcode field is absent is answered with 401 (the invalid
passcode path of check_passcode, main.c lines 329-332 and 978-981),
not with a 400 bad-request response as the claim groups it. -/
theorem absent_passcode_gives_401_cex :
    (control_handler sampleConfig sampleState
        (some (Json.jobj [("channel", Json.jstr "light")]))).fst = 401 ∧
    (401 : Nat) ≠ 400 := by
  decide

/-- Claim C8 as amended: for every mutating API request, a missing or
malformed JSON body yields 400; an absent, non-string or mismatching
passcode yields 401 (including the absent-passcode case, which is not a
400); and with a valid passcode a missing or mistyped required field
(control channel, gpio number, OTA firmware_url) yields 400. -/
theorem mutating_api_status_codes (cfg : DeviceConfig) (st : OutputState)
    (hmac : String → String → List Nat) (sha256fn : List Nat → List Nat)
    (manifest : Option (Option Json)) (firmware : Option (List (List Nat)))
    (root : Json) :
    ((control_handler cfg st none).fst = 400 ∧
     (config_handler cfg st none).fst = 400 ∧
     pair_handler cfg none = 400 ∧
     (gpio_test_handler cfg none).fst = 400 ∧
     (ota_apply_handler hmac sha256fn cfg none manifest firmware).fst = 400) ∧
    (getObjectItem root "passcode" = none → check_passcode cfg root = false) ∧
    (check_passcode cfg root = false →
      (control_handler cfg st (some root)).fst = 401 ∧
      (config_handler cfg st (some root)).fst = 401 ∧
      pair_handler cfg (some root) = 401 ∧
      (gpio_test_handler cfg (some root)).fst = 401 ∧
      (ota_apply_handler hmac sha256fn cfg (some root) manifest firmware).fst = 401) ∧
    (check_passcode cfg root = true →
      (jsonStr (getObjectItem root "channel") = none →
        (control_handler cfg st (some root)).fst = 400) ∧
      (jsonInt (getObjectItem root "gpio") = none →
        (gpio_test_handler cfg (some root)).fst = 400) ∧
      (jsonStr (getObjectItem root "firmware_url") = none →
        (ota_apply_handler hmac sha256fn cfg (some root) manifest firmware).fst = 400)) := by
  refine ⟨?_, ?_, ?_, ?_⟩
  · exact ⟨rfl, rfl, rfl, rfl, rfl⟩
  · intro hp
    simp [check_passcode, hp, jsonStr]
  · intro hpass
    refine ⟨?_, ?_, ?_, ?_, ?_⟩ <;>
      simp [control_handler, config_handler, pair_handler, gpio_test_handler,
        ota_apply_handler, hpass]
  · intro hpass
    refine ⟨?_, ?_, ?_⟩
    · intro hch
      simp [control_handler, hpass, handle_control, hch]
    · intro hg
      simp [gpio_test_handler, hpass, hg]
    · intro hfu
      simp [ota_apply_handler, hpass, hfu]

/-- Witness for mutating_api_status_codes: a body without a passcode
gets 401 on every mutating endpoint, and with a valid passcode a
missing channel, gpio or firmware_url gets 400. -/
theorem mutating_api_status_codes_witness :
    ((control_handler sampleConfig sampleState
        (some (Json.jobj [("channel", Json.jstr "light")]))).fst = 401 ∧
      (config_handler sampleConfig sampleState
        (some (Json.jobj [("channel", Json.jstr "light")]))).fst = 401 ∧
      pair_handler sampleConfig
        (some (Json.jobj [("channel", Json.jstr "light")])) = 401 ∧
      (gpio_test_handler sampleConfig
        (some (Json.jobj [("channel", Json.jstr "light")]))).fst = 401 ∧
      (ota_apply_handler hmacLenDigest zeroSha sampleConfig
        (some (Json.jobj [("channel", Json.jstr "light")])) none none).fst = 401) ∧
    (control_handler sampleConfig sampleState
      (some (Json.jobj [("passcode", Json.jstr "x")]))).fst = 400 ∧
    (gpio_test_handler sampleConfig
      (some (Json.jobj [("passcode", Json.jstr "x")]))).fst = 400 ∧
    (ota_apply_handler hmacLenDigest zeroSha sampleConfig
      (some (Json.jobj [("passcode", Json.jstr "x")])) none none).fst = 400 :=
  have t1 := (mutating_api_status_codes sampleConfig sampleState hmacLenDigest zeroSha
    none none (Json.jobj [("channel", Json.jstr "light")])).2.2.1 (by decide)
  have t2 := (mutating_api_status_codes sampleConfig sampleState hmacLenDigest zeroSha
    none none (Json.jobj [("passcode", Json.jstr "x")])).2.2.2 (by decide)
  ⟨t1, t2.1 rfl, t2.2.1 rfl, t2.2.2 rfl⟩

end Fw
